import Mathlib

/-!
Verification of the WGL backend of `smithay-universal`
(`src/backend/wgl/{ffi,context,display}.rs`, `src/utils/simd_utils.rs`)
against its natural-language specification.

Pointers and native handles (`isize`, `HDC`, `HGLRC`, `*const c_void`) are
modelled as `Int`; a value of `0` is the null pointer / null handle.  The
host platform (opengl32.dll, the WGL driver, GDI32/User32) is modelled as an
explicit environment record whose fields give the answers of the native
calls; the Rust functions become pure Lean functions of that environment.
-/

/-- Model of the host GL runtime as seen by `src/backend/wgl/ffi.rs`:
whether `opengl32.dll` can be opened, which named symbols it exports,
what `wglGetProcAddress` answers for a (NUL-terminated) name, and what a
direct `Library::get` symbol lookup answers (`none` = symbol absent).
Names are byte strings, modelled as `List Nat`. -/
structure GlRuntime where
  libAvailable : Bool
  hasSymbol : String → Bool
  wglGetProcAddressFn : List Nat → Int
  libLookup : List Nat → Option Int

/-- Outcome of running `init_gl_library`.  The Rust function's return type is
`Result<(), Error>`, but every failure path goes through `.expect(...)`,
which panics (aborts the thread) instead of returning: `.ok` models the
(sole) return value `Ok(())`, and `.crash msg` models a panic with the
`.expect` message.  No constructor models a returned `Err`, because the
source has no path that returns one. -/
inductive InitOutcome where
  | ok : InitOutcome
  | crash (msg : String) : InitOutcome
  deriving DecidableEq, Repr

/-- The core entry points `init_gl_library` resolves, in source order
(`ffi.rs` lines 40-57). -/
def requiredWglSymbols : List String :=
  ["wglGetProcAddress", "wglCreateContext", "wglDeleteContext",
   "wglMakeCurrent", "wglGetCurrentContext", "wglGetCurrentDC"]

/-- `init_gl_library` (`ffi.rs:27`): opens `opengl32.dll` via
`Library::new(..).expect("Failed to load opengl32.dll")`, then resolves the
six WGL symbols, each via `.expect("Failed to load <symbol>")`.  A missing
library or missing symbol therefore panics; otherwise the function returns
`Ok(())`. -/
def init_gl_library (rt : GlRuntime) : InitOutcome :=
  if rt.libAvailable then
    match requiredWglSymbols.find? (fun s => ! rt.hasSymbol s) with
    | some s => .crash ("Failed to load " ++ s)
    | none => .ok
  else .crash "Failed to load opengl32.dll"

/-- The validity test `get_proc_address` (`ffi.rs:83-86`) applies to the
result of `wglGetProcAddress`: the pointer is usable iff it is not null and
not one of the sentinel values `1`, `2`, `3`, `-1`
(`null.wrapping_add(1..3)` and `null.wrapping_sub(1)` on `isize`). -/
def wglPtrValid (p : Int) : Bool :=
  decide (p ≠ 0 ∧ p ≠ 1 ∧ p ≠ 2 ∧ p ≠ 3 ∧ p ≠ -1)

/-- `get_proc_address` (`ffi.rs:67`).  `none` models the call not returning
(the panic inside `init_gl_library`); `some p` models returning pointer `p`.
Step by step, following the source: if `init_gl_library()` panics the call
panics (its `is_err()` branch is dead code, since `init_gl_library` never
returns `Err`); `CString::new(name)` fails exactly when the name has an
interior NUL byte, returning null; otherwise `wglGetProcAddress` is tried
first and its result returned if it passes `wglPtrValid`; otherwise the
direct library lookup of the same name is returned, or null if that lookup
fails. -/
def get_proc_address (rt : GlRuntime) (name : List Nat) : Option Int :=
  match init_gl_library rt with
  | .crash _ => none
  | .ok =>
    if name.contains 0 then some 0
    else
      if wglPtrValid (rt.wglGetProcAddressFn name) then
        some (rt.wglGetProcAddressFn name)
      else
        some ((rt.libLookup name).getD 0)

/-- The error enum of `src/backend/wgl/mod.rs`.  Note that
`LibraryLoadFailed` is declared there but never constructed anywhere in the
backend. -/
inductive WglError where
  | GetDCFailed
  | ChoosePixelFormatFailed
  | SetPixelFormatFailed
  | ContextCreationFailed
  | MakeCurrentFailed
  | ExtensionNotSupported (name : String)
  | LibraryLoadFailed (msg : String)
  deriving DecidableEq, Repr

/-- The payload-less error of `make_current` / `unbind` (`mod.rs:44-46`). -/
inductive MakeCurrentError where
  | mk : MakeCurrentError
  deriving DecidableEq, Repr

/-- `PIXELFORMATDESCRIPTOR` (`ffi.rs:131-158`), field for field; the
numeric field types (`u16`/`u8`/`u32`) are modelled as `Nat` since the code
only ever stores small constants in them. -/
structure PixelFormatDescriptor where
  n_size : Nat
  n_version : Nat
  dw_flags : Nat
  i_pixel_type : Nat
  c_color_bits : Nat
  c_red_bits : Nat
  c_red_shift : Nat
  c_green_bits : Nat
  c_green_shift : Nat
  c_blue_bits : Nat
  c_blue_shift : Nat
  c_alpha_bits : Nat
  c_alpha_shift : Nat
  c_accum_bits : Nat
  c_accum_red_bits : Nat
  c_accum_green_bits : Nat
  c_accum_blue_bits : Nat
  c_accum_alpha_bits : Nat
  c_depth_bits : Nat
  c_stencil_bits : Nat
  c_aux_buffers : Nat
  i_layer_type : Nat
  b_reserved : Nat
  dw_layer_mask : Nat
  dw_visible_mask : Nat
  dw_damage_mask : Nat
  deriving DecidableEq, Repr

/-- `Default::default()` for the descriptor: all fields zero. -/
def pfdDefault : PixelFormatDescriptor :=
  ⟨0, 0, 0, 0, 0, 0, 0, 0, 0, 0, 0, 0, 0, 0, 0, 0, 0, 0, 0, 0, 0, 0, 0, 0, 0, 0⟩

def PFD_DRAW_TO_WINDOW : Nat := 4

def PFD_SUPPORT_OPENGL : Nat := 32

def PFD_DOUBLEBUFFER : Nat := 1

def PFD_TYPE_RGBA : Nat := 0

def PFD_MAIN_PLANE : Nat := 0

/-- The pixel-format descriptor `from_window` builds (`display.rs:53-63`);
`n_size` is `size_of::<PIXELFORMATDESCRIPTOR>() = 40`. -/
def from_window_pfd : PixelFormatDescriptor :=
  { pfdDefault with
    n_size := 40
    n_version := 1
    dw_flags := PFD_DRAW_TO_WINDOW ||| PFD_SUPPORT_OPENGL ||| PFD_DOUBLEBUFFER
    i_pixel_type := PFD_TYPE_RGBA
    c_color_bits := 32
    c_depth_bits := 24
    c_stencil_bits := 8
    i_layer_type := PFD_MAIN_PLANE }

/-- Model of the GDI32/User32 surface of `ffi.rs:167-178`: the answers of
`GetDC`, `ChoosePixelFormat` and `SetPixelFormat` (a zero return means
failure for each of them). -/
structure GdiEnv where
  getDC : Int → Int
  choosePixelFormat : Int → PixelFormatDescriptor → Int
  setPixelFormat : Int → Int → PixelFormatDescriptor → Int

/-- `WGLDisplayHandle` (`display.rs:12-19`): device context, optional
window handle, and whether the DC is owned (must be released on drop). -/
structure WGLDisplayHandle where
  hdc : Int
  hwnd : Option Int
  owned : Bool
  deriving DecidableEq, Repr

/-- `WGLDisplay::from_window` (`display.rs:44-83`).  `none` models the
panic inside `init_gl_library`; otherwise the result is the returned
`Result`.  (The `ReleaseDC` calls on the two error paths after `GetDC`
succeeded are side effects not visible in the return value and are not
modelled.)  The Rust `let hdc = ...; let pixel_format = ...` bindings are
inlined; `env` is pure, so the repeated applications denote the same
values. -/
def from_window (rt : GlRuntime) (env : GdiEnv) (hwnd : Int) :
    Option (Except WglError WGLDisplayHandle) :=
  match init_gl_library rt with
  | .crash _ => none
  | .ok =>
    if env.getDC hwnd = 0 then some (.error .GetDCFailed)
    else if env.choosePixelFormat (env.getDC hwnd) from_window_pfd = 0 then
      some (.error .ChoosePixelFormatFailed)
    else if env.setPixelFormat (env.getDC hwnd)
        (env.choosePixelFormat (env.getDC hwnd) from_window_pfd) from_window_pfd = 0 then
      some (.error .SetPixelFormatFailed)
    else
      some (.ok { hdc := env.getDC hwnd, hwnd := some hwnd, owned := true })

/-- `WGLDisplay::from_raw` (`display.rs:89-103`). -/
def from_raw (rt : GlRuntime) (hdc : Int) :
    Option (Except WglError WGLDisplayHandle) :=
  match init_gl_library rt with
  | .crash _ => none
  | .ok =>
    if hdc = 0 then some (.error .GetDCFailed)
    else some (.ok { hdc := hdc, hwnd := none, owned := false })

/-- `Drop for WGLDisplayHandle` (`display.rs:21-31`): returns the
`(hwnd, hdc)` argument pair of the `ReleaseDC` call the drop performs, or
`none` when no native release call is issued. -/
def dropDisplayHandle (h : WGLDisplayHandle) : Option (Int × Int) :=
  if h.owned then
    match h.hwnd with
    | some hwnd => some (hwnd, h.hdc)
    | none => none
  else none

/-- `WGLContextHandle` (`context.rs:13-18`): the native context handle and
the display it was created against (the `Arc<WGLDisplayHandle>` strong
reference is modelled by embedding the display value). -/
structure WGLContextHandle where
  hglrc : Int
  display : WGLDisplayHandle
  deriving DecidableEq, Repr

/-- `WGLContext::new` (`context.rs:40-52`), with the resolved
`wglCreateContext` entry point passed as `create`. -/
def WGLContext.new (create : Int → Int) (display : WGLDisplayHandle) :
    Except WglError WGLContextHandle :=
  if create display.hdc = 0 then .error .ContextCreationFailed
  else .ok { hglrc := create display.hdc, display := display }

/-- The per-thread WGL binding state: the drawable and the rendering
context currently bound on the calling thread (`0` = none for both, as for
`wglGetCurrentDC` / `wglGetCurrentContext`). -/
structure WglThreadState where
  currentDC : Int
  currentCtx : Int
  deriving DecidableEq, Repr

/-- Platform semantics of `wglMakeCurrent(hdc, hglrc)`: the driver may
accept (`ok = true`) or refuse (`ok = false`) the call; on acceptance the
thread's binding becomes `(hdc, hglrc)` and TRUE is returned, on refusal
the binding is unchanged and FALSE is returned. -/
def wglMakeCurrentCall (ok : Bool) (hdc hglrc : Int) (s : WglThreadState) :
    WglThreadState × Bool :=
  if ok then ({ currentDC := hdc, currentCtx := hglrc }, true) else (s, false)

/-- Platform semantics of `wglGetCurrentContext()`. -/
def wglGetCurrentContextCall (s : WglThreadState) : Int :=
  s.currentCtx

/-- `WGLContext::make_current` (`context.rs:55-65`): calls
`wglMakeCurrent(display.hdc, hglrc)` and maps FALSE to `MakeCurrentError`. -/
def make_current (ok : Bool) (c : WGLContextHandle) (s : WglThreadState) :
    WglThreadState × Except MakeCurrentError Unit :=
  let r := wglMakeCurrentCall ok c.display.hdc c.hglrc s
  (r.1, if r.2 then .ok () else .error .mk)

/-- `WGLContext::unbind` (`context.rs:73-80`): calls `wglMakeCurrent(0, 0)`
and maps FALSE to `MakeCurrentError`. -/
def unbind (ok : Bool) (s : WglThreadState) :
    WglThreadState × Except MakeCurrentError Unit :=
  let r := wglMakeCurrentCall ok 0 0 s
  (r.1, if r.2 then .ok () else .error .mk)

/-- `WGLContext::is_current` (`context.rs:68-70`):
`wglGetCurrentContext() == self.handle.hglrc`. -/
def is_current (c : WGLContextHandle) (s : WglThreadState) : Bool :=
  wglGetCurrentContextCall s == c.hglrc

/-- `Drop for WGLContextHandle` (`context.rs:20-30`): queries
`wglGetCurrentContext()`; if it equals `self.hglrc`, calls
`wglMakeCurrent(0, 0)` (result ignored); then calls
`wglDeleteContext(self.hglrc)`.  The first component is the thread state
after the drop (`wglDeleteContext` does not change the thread's binding);
the second component is the thread's current context at the moment
`wglDeleteContext` is invoked. -/
def dropContextHandle (ok : Bool) (c : WGLContextHandle) (s : WglThreadState) :
    WglThreadState × Int :=
  let s1 := if wglGetCurrentContextCall s = c.hglrc then (wglMakeCurrentCall ok 0 0 s).1 else s
  (s1, wglGetCurrentContextCall s1)

/-- One platform call issued from a single thread: a context's
`make_current` or a (static) `unbind`, each with the driver's
accept/refuse answer attached. -/
inductive CtxOp where
  | makeCurrentOp (c : WGLContextHandle) (ok : Bool)
  | unbindOp (ok : Bool)
  deriving DecidableEq, Repr

/-- Effect of one `CtxOp` on the thread state. -/
def applyCtxOp (s : WglThreadState) : CtxOp → WglThreadState
  | .makeCurrentOp c ok => (make_current ok c s).1
  | .unbindOp ok => (unbind ok s).1

/-- Run a sequence of calls, first element first. -/
def runCtxOps (s : WglThreadState) (ops : List CtxOp) : WglThreadState :=
  ops.foldl applyCtxOp s

/-- Whether the platform accepted the call. -/
def ctxOpSucceeds : CtxOp → Bool
  | .makeCurrentOp _ ok => ok
  | .unbindOp ok => ok

/-- The most recent platform-accepted call of the sequence, if any. -/
def lastSuccessfulOp : List CtxOp → Option CtxOp
  | [] => none
  | op :: rest =>
    match lastSuccessfulOp rest with
    | some o => some o
    | none => if ctxOpSucceeds op then some op else none

/-- The `_mm256_shuffle_epi8` control mask of `swizzle_simd`
(`simd_utils.rs:37-42`), written as absolute byte indices into the 32-byte
block.  Every mask byte is below `0x80`, and within each 128-bit lane the
source indices the intrinsic uses (`mask[i] mod 16`) address exactly the
bytes `18, 17, 16, 19, ...` of the whole block in the upper lane, so plain
indexing into the 32-byte block reproduces the intrinsic here. -/
def pshufbMask32 : List Nat :=
  [2, 1, 0, 3, 6, 5, 4, 7, 10, 9, 8, 11, 14, 13, 12, 15,
   18, 17, 16, 19, 22, 21, 20, 23, 26, 25, 24, 27, 30, 29, 28, 31]

/-- The `vqtbl1q_u8` lookup mask of the NEON `swizzle_simd`
(`simd_utils.rs:62-65`). -/
def vtblMask16 : List Nat :=
  [2, 1, 0, 3, 6, 5, 4, 7, 10, 9, 8, 11, 14, 13, 12, 15]

/-- Byte shuffle: output byte `i` is `block[mask[i]]` (semantics of
`_mm256_shuffle_epi8` for an in-lane mask below `0x80`, and of
`vqtbl1q_u8`). -/
def shuffleBytes (mask block : List Nat) : List Nat :=
  mask.map (fun i => block.getD i 0)

/-- The SIMD main loops of `swizzle_simd`: shuffle `n` consecutive
blocks of `blockLen` bytes in place, leaving everything after them
untouched. -/
def swizzle_blocks (blockLen : Nat) (mask : List Nat) : Nat → List Nat → List Nat
  | 0, l => l
  | n + 1, l => shuffleBytes mask (l.take blockLen) ++ swizzle_blocks blockLen mask n (l.drop blockLen)

/-- The x86_64 `swizzle_simd` (`simd_utils.rs:30-53`): processes
`len & !31` bytes (`⌊len/32⌋` full 32-byte AVX2 blocks) and stops; the
source has no scalar tail loop, so the remaining bytes are untouched. -/
def swizzle_simd_x86 (data : List Nat) : List Nat :=
  swizzle_blocks 32 pshufbMask32 (data.length / 32) data

/-- The aarch64 `swizzle_simd` (`simd_utils.rs:56-75`): processes
`len & !15` bytes (full 16-byte NEON blocks); again no tail loop. -/
def swizzle_simd_neon (data : List Nat) : List Nat :=
  swizzle_blocks 16 vtblMask16 (data.length / 16) data

/-- `swizzle_scalar` (`simd_utils.rs:77-81`): `chunks_exact_mut(4)` swaps
bytes 0 and 2 of every complete 4-byte chunk; the trailing `len mod 4`
bytes are untouched. -/
def swizzle_scalar : List Nat → List Nat
  | b0 :: b1 :: b2 :: b3 :: rest => b2 :: b1 :: b0 :: b3 :: swizzle_scalar rest
  | l => l

/-- The compile-time architecture dispatch of `swizzle_bgra_rgba`
(`simd_utils.rs:17-26`). -/
inductive TargetArch where
  | x86_64
  | aarch64
  | other
  deriving DecidableEq, Repr

/-- `swizzle_bgra_rgba`: the SIMD path on x86_64 and aarch64, the scalar
path only on every other architecture. -/
def swizzle_bgra_rgba : TargetArch → List Nat → List Nat
  | .x86_64, data => swizzle_simd_x86 data
  | .aarch64, data => swizzle_simd_neon data
  | .other, data => swizzle_scalar data

/-- A runtime where the library opens and every symbol resolves; the
extension query answers the sentinel `2` for every name, the direct lookup
answers address `77`. -/
def rtOk : GlRuntime :=
  { libAvailable := true
    hasSymbol := fun _ => true
    wglGetProcAddressFn := fun _ => 2
    libLookup := fun _ => some 77 }

/-- A runtime where `opengl32.dll` cannot be opened. -/
def rtNoLib : GlRuntime :=
  { libAvailable := false
    hasSymbol := fun _ => true
    wglGetProcAddressFn := fun _ => 0
    libLookup := fun _ => none }

/-- A runtime where the library opens but `wglCreateContext` is missing. -/
def rtMissingSym : GlRuntime :=
  { libAvailable := true
    hasSymbol := fun s => s != "wglCreateContext"
    wglGetProcAddressFn := fun _ => 0
    libLookup := fun _ => none }

/-- The byte string "glClear". -/
def glClearName : List Nat := [103, 108, 67, 108, 101, 97, 114]

/-- A GDI environment where every native call succeeds. -/
def envOkGdi : GdiEnv :=
  { getDC := fun _ => 11
    choosePixelFormat := fun _ _ => 3
    setPixelFormat := fun _ _ _ => 1 }

/-- The display handle `from_window rtOk envOkGdi 9` produces. -/
def dWin : WGLDisplayHandle := { hdc := 11, hwnd := some 9, owned := true }

/-- The display handle `from_raw rtOk 13` produces. -/
def dRaw : WGLDisplayHandle := { hdc := 13, hwnd := none, owned := false }

/-- A sample context handle over `dWin`. -/
def cW : WGLContextHandle := { hglrc := 7, display := dWin }

/-- A thread state in which `cW` is current. -/
def sCur : WglThreadState := { currentDC := 11, currentCtx := 7 }

/-- A thread state with no current context. -/
def sZero : WglThreadState := { currentDC := 0, currentCtx := 0 }

/-- C2: the claim says a failed library open or symbol resolution makes
`init_gl_library` return an error reported as `LibraryLoadFailed`.  The
code instead panics through `.expect`: with the library unavailable the
call crashes with the `.expect` message, and likewise when a required
symbol is missing — no `Err` (in particular no `LibraryLoadFailed`) is
ever returned. -/
theorem init_gl_library_aborts_on_load_failure :
    init_gl_library rtNoLib = InitOutcome.crash "Failed to load opengl32.dll" ∧
    init_gl_library rtMissingSym = InitOutcome.crash "Failed to load wglCreateContext" := by
  constructor <;> rfl

/-- C4: the claim says the SIMD paths of `swizzle_bgra_rgba` agree with
`swizzle_scalar` including pixels after the last full 32-byte (AVX2) or
16-byte (NEON) block.  On the one-pixel buffer `[10, 20, 30, 40]` both
SIMD paths process zero full blocks and leave the buffer unchanged, while
the scalar reference swaps bytes 0 and 2 — which is also exactly what the
module's own test `test_swizzle_alignment_edge_cases` asserts. -/
theorem swizzle_simd_drops_tail :
    swizzle_bgra_rgba TargetArch.x86_64 [10, 20, 30, 40] = [10, 20, 30, 40] ∧
    swizzle_bgra_rgba TargetArch.aarch64 [10, 20, 30, 40] = [10, 20, 30, 40] ∧
    swizzle_scalar [10, 20, 30, 40] = [30, 20, 10, 40] := by
  refine ⟨rfl, rfl, rfl⟩

/-- C3: for every name without an interior NUL byte, once the library is
initialized, `get_proc_address` returns the extension-query result when it
passes the sentinel test, falls back to the direct library lookup of the
same name otherwise, returns null when both paths fail, and in all cases
returns a pointer rather than an error. -/
theorem get_proc_address_fallback_spec (rt : GlRuntime) (name : List Nat)
    (hinit : init_gl_library rt = InitOutcome.ok)
    (hnul : name.contains 0 = false) :
    (wglPtrValid (rt.wglGetProcAddressFn name) = true →
      get_proc_address rt name = some (rt.wglGetProcAddressFn name)) ∧
    (wglPtrValid (rt.wglGetProcAddressFn name) = false →
      ∀ p, rt.libLookup name = some p → get_proc_address rt name = some p) ∧
    (wglPtrValid (rt.wglGetProcAddressFn name) = false →
      rt.libLookup name = none → get_proc_address rt name = some 0) ∧
    ∃ r, get_proc_address rt name = some r := by
  have hnm : (0 : Nat) ∉ name := by simpa using hnul
  refine ⟨?_, ?_, ?_, ?_⟩
  · intro hv
    simp [get_proc_address, hinit, hnm, hv]
  · intro hv p hp
    simp [get_proc_address, hinit, hnm, hv, hp]
  · intro hv hp
    simp [get_proc_address, hinit, hnm, hv, hp]
  · cases hv : wglPtrValid (rt.wglGetProcAddressFn name) with
    | true => exact ⟨rt.wglGetProcAddressFn name, by simp [get_proc_address, hinit, hnm, hv]⟩
    | false => exact ⟨(rt.libLookup name).getD 0, by simp [get_proc_address, hinit, hnm, hv]⟩

/-- Witness for C3: in `rtOk` the extension query answers the sentinel `2`
for "glClear", so the fallback library lookup answers, giving address 77. -/
theorem get_proc_address_fallback_spec_witness :
    get_proc_address rtOk glClearName = some 77 :=
  (get_proc_address_fallback_spec rtOk glClearName rfl rfl).2.1 rfl 77 rfl

/-- C10: with the platform's two lookup functions giving fixed answers per
name, two calls of `get_proc_address` on the same name give the same
result, and for a name whose direct library lookup yields a non-null
address that common result is non-null. -/
theorem get_proc_address_repeatable (rt : GlRuntime) (name : List Nat) (p : Int)
    (hinit : init_gl_library rt = InitOutcome.ok)
    (hnul : name.contains 0 = false)
    (hp : rt.libLookup name = some p) (hpnz : p ≠ 0) :
    ∃ r, r ≠ 0 ∧ get_proc_address rt name = some r ∧
      get_proc_address rt name = some r := by
  have hnm : (0 : Nat) ∉ name := by simpa using hnul
  cases hv : wglPtrValid (rt.wglGetProcAddressFn name) with
  | true =>
    refine ⟨rt.wglGetProcAddressFn name, ?_, ?_, ?_⟩
    · unfold wglPtrValid at hv
      exact (of_decide_eq_true hv).1
    · simp [get_proc_address, hinit, hnm, hv]
    · simp [get_proc_address, hinit, hnm, hv]
  | false =>
    refine ⟨p, hpnz, ?_, ?_⟩
    · simp [get_proc_address, hinit, hnm, hv, hp]
    · simp [get_proc_address, hinit, hnm, hv, hp]

/-- Witness for C10 at the concrete runtime `rtOk` and name "glClear". -/
theorem get_proc_address_repeatable_witness :
    ∃ r, r ≠ 0 ∧ get_proc_address rtOk glClearName = some r ∧
      get_proc_address rtOk glClearName = some r :=
  get_proc_address_repeatable rtOk glClearName 77 rfl rfl rfl (by decide)

/-- C8: once the library is initialized, `from_raw` returns an error iff
the supplied handle is null; for every non-null handle it returns `Ok`
with `owned = false` and with the `hdc()` accessor (field `hdc`) giving
back the supplied handle. -/
theorem from_raw_spec (rt : GlRuntime) (hdc : Int)
    (hinit : init_gl_library rt = InitOutcome.ok) :
    (hdc = 0 → from_raw rt hdc = some (.error .GetDCFailed)) ∧
    (hdc ≠ 0 →
      from_raw rt hdc = some (.ok { hdc := hdc, hwnd := none, owned := false })) ∧
    (∀ e, from_raw rt hdc = some (.error e) → hdc = 0) := by
  refine ⟨?_, ?_, ?_⟩
  · intro h0
    simp [from_raw, hinit, h0]
  · intro h0
    simp [from_raw, hinit, h0]
  · intro e he
    by_contra h0
    simp [from_raw, hinit, h0] at he

/-- Witness for C8: the non-null raw handle 13 is wrapped unowned. -/
theorem from_raw_spec_witness :
    from_raw rtOk 13 = some (.ok { hdc := 13, hwnd := none, owned := false }) :=
  (from_raw_spec rtOk 13 rfl).2.1 (by decide)

/-- C9: `WGLContext::new` fails with `ContextCreationFailed` exactly when
`wglCreateContext` returns the zero sentinel; for a non-zero created
handle it returns a context whose native handle is the created handle and
whose display strong reference is the given display. -/
theorem context_new_spec (create : Int → Int) (d : WGLDisplayHandle) :
    (WGLContext.new create d = .error .ContextCreationFailed ↔ create d.hdc = 0) ∧
    (create d.hdc ≠ 0 →
      WGLContext.new create d = .ok { hglrc := create d.hdc, display := d }) := by
  constructor
  · constructor
    · intro he
      by_contra h0
      simp [WGLContext.new, h0] at he
    · intro h0
      simp [WGLContext.new, h0]
  · intro h0
    simp [WGLContext.new, h0]

/-- Witness for C9: a creation call answering handle 21 over `dWin`. -/
theorem context_new_spec_witness :
    WGLContext.new (fun _ => 21) dWin = .ok { hglrc := 21, display := dWin } :=
  (context_new_spec (fun _ => 21) dWin).2 (by decide)

/-- C6: `from_window` requests a pixel format with 32-bit color, 24-bit
depth, 8-bit stencil, the double-buffer, draw-to-window and
supports-OpenGL flags; it fails with a distinct error at each stage
(`GetDC`, `ChoosePixelFormat`, `SetPixelFormat` returning zero), and on
success the returned surface has `owned = true`. -/
theorem from_window_spec (rt : GlRuntime) (env : GdiEnv) (hwnd : Int)
    (hinit : init_gl_library rt = InitOutcome.ok) :
    (from_window_pfd.c_color_bits = 32 ∧ from_window_pfd.c_depth_bits = 24 ∧
      from_window_pfd.c_stencil_bits = 8 ∧
      from_window_pfd.dw_flags =
        PFD_DRAW_TO_WINDOW ||| PFD_SUPPORT_OPENGL ||| PFD_DOUBLEBUFFER) ∧
    (env.getDC hwnd = 0 → from_window rt env hwnd = some (.error .GetDCFailed)) ∧
    (env.getDC hwnd ≠ 0 →
      env.choosePixelFormat (env.getDC hwnd) from_window_pfd = 0 →
      from_window rt env hwnd = some (.error .ChoosePixelFormatFailed)) ∧
    (env.getDC hwnd ≠ 0 →
      env.choosePixelFormat (env.getDC hwnd) from_window_pfd ≠ 0 →
      env.setPixelFormat (env.getDC hwnd)
        (env.choosePixelFormat (env.getDC hwnd) from_window_pfd) from_window_pfd = 0 →
      from_window rt env hwnd = some (.error .SetPixelFormatFailed)) ∧
    (env.getDC hwnd ≠ 0 →
      env.choosePixelFormat (env.getDC hwnd) from_window_pfd ≠ 0 →
      env.setPixelFormat (env.getDC hwnd)
        (env.choosePixelFormat (env.getDC hwnd) from_window_pfd) from_window_pfd ≠ 0 →
      from_window rt env hwnd =
        some (.ok { hdc := env.getDC hwnd, hwnd := some hwnd, owned := true })) := by
  refine ⟨⟨rfl, rfl, rfl, rfl⟩, ?_, ?_, ?_, ?_⟩
  · intro h1
    simp [from_window, hinit, h1]
  · intro h1 h2
    simp [from_window, hinit, h1, h2]
  · intro h1 h2 h3
    simp [from_window, hinit, h1, h2, h3]
  · intro h1 h2 h3
    simp [from_window, hinit, h1, h2, h3]

/-- Witness for C6: in `envOkGdi` every native call succeeds, so
`from_window` yields an owned surface over the acquired DC 11. -/
theorem from_window_spec_witness :
    from_window rtOk envOkGdi 9 = some (.ok { hdc := 11, hwnd := some 9, owned := true }) :=
  (from_window_spec rtOk envOkGdi 9 rfl).2.2.2.2 (by decide) (by decide) (by decide)

/-- C7: for surfaces produced by the two constructors, the drop of the
handle issues the native `ReleaseDC` call iff `owned` is true: a
`from_window` surface is owned and its drop releases the DC against the
original window, a `from_raw` surface is unowned and its drop issues no
native release call. -/
theorem drop_release_iff_owned (rt : GlRuntime) (env : GdiEnv) (hwnd hdcRaw : Int)
    (d dr : WGLDisplayHandle)
    (hw : from_window rt env hwnd = some (Except.ok d))
    (hr : from_raw rt hdcRaw = some (Except.ok dr)) :
    ((dropDisplayHandle d).isSome = d.owned ∧ d.owned = true ∧
      dropDisplayHandle d = some (hwnd, d.hdc)) ∧
    ((dropDisplayHandle dr).isSome = dr.owned ∧ dr.owned = false ∧
      dropDisplayHandle dr = none) := by
  obtain ⟨dh, dhw, down⟩ := d
  obtain ⟨rh, rhw, rown⟩ := dr
  cases hini : init_gl_library rt with
  | crash m =>
    rw [from_window, hini] at hw
    simp at hw
  | ok =>
    rw [from_window, hini] at hw
    rw [from_raw, hini] at hr
    by_cases h1 : env.getDC hwnd = 0
    · simp [h1] at hw
    by_cases h2 : env.choosePixelFormat (env.getDC hwnd) from_window_pfd = 0
    · simp [h1, h2] at hw
    by_cases h3 : env.setPixelFormat (env.getDC hwnd)
        (env.choosePixelFormat (env.getDC hwnd) from_window_pfd) from_window_pfd = 0
    · simp [h1, h2, h3] at hw
    simp only [h1, h2, h3, if_neg, if_false] at hw
    by_cases hz : hdcRaw = 0
    · simp [hz] at hr
    simp only [hz, if_neg, if_false] at hr
    simp only [Option.some.injEq, Except.ok.injEq, WGLDisplayHandle.mk.injEq] at hw hr
    obtain ⟨e1, e2, e3⟩ := hw
    obtain ⟨f1, f2, f3⟩ := hr
    subst e1; subst e2; subst e3
    subst f1; subst f2; subst f3
    simp [dropDisplayHandle]

/-- Witness for C7 at the concrete constructor results `dWin` and `dRaw`. -/
theorem drop_release_iff_owned_witness :
    ((dropDisplayHandle dWin).isSome = dWin.owned ∧ dWin.owned = true ∧
      dropDisplayHandle dWin = some (9, dWin.hdc)) ∧
    ((dropDisplayHandle dRaw).isSome = dRaw.owned ∧ dRaw.owned = false ∧
      dropDisplayHandle dRaw = none) :=
  drop_release_iff_owned rtOk envOkGdi 9 13 dWin dRaw rfl rfl

/-- C1: the drop of the last owner of a context handle queries the
platform's current context; when the query answers this handle it issues
`wglMakeCurrent(0, 0)` before `wglDeleteContext` (and issues nothing
otherwise), so — provided the handle is non-null, as `WGLContext::new`
guarantees, and the driver accepts the null unbind — the context is not
the thread's current context at the moment it is deleted, and after
dropping a context that was current the current-context query answers
null. -/
theorem drop_ctx_unbind_before_delete (ok : Bool) (c : WGLContextHandle)
    (s : WglThreadState) (hnz : c.hglrc ≠ 0)
    (hok : s.currentCtx = c.hglrc → ok = true) :
    (dropContextHandle ok c s).2 ≠ c.hglrc ∧
    (s.currentCtx = c.hglrc →
      (dropContextHandle ok c s).1 = (wglMakeCurrentCall ok 0 0 s).1 ∧
      wglGetCurrentContextCall (dropContextHandle ok c s).1 = 0) ∧
    (s.currentCtx ≠ c.hglrc → (dropContextHandle ok c s).1 = s) := by
  by_cases hc : s.currentCtx = c.hglrc
  · have hoktrue : ok = true := hok hc
    subst hoktrue
    refine ⟨?_, fun _ => ⟨?_, ?_⟩, fun hne => absurd hc hne⟩
    · simp [dropContextHandle, wglGetCurrentContextCall, wglMakeCurrentCall, hc]
      exact Ne.symm hnz
    · simp [dropContextHandle, wglGetCurrentContextCall, hc]
    · simp [dropContextHandle, wglGetCurrentContextCall, wglMakeCurrentCall, hc]
  · refine ⟨?_, fun heq => absurd heq hc, fun _ => ?_⟩
    · simp [dropContextHandle, wglGetCurrentContextCall, hc]
    · simp [dropContextHandle, wglGetCurrentContextCall, hc]

/-- Witness for C1: dropping `cW` (handle 7) while it is current in
`sCur`, with the driver accepting the unbind. -/
theorem drop_ctx_unbind_before_delete_witness :
    (dropContextHandle true cW sCur).2 ≠ cW.hglrc ∧
    wglGetCurrentContextCall (dropContextHandle true cW sCur).1 = 0 :=
  ⟨(drop_ctx_unbind_before_delete true cW sCur (by decide) (fun _ => rfl)).1,
   ((drop_ctx_unbind_before_delete true cW sCur (by decide) (fun _ => rfl)).2.1 rfl).2⟩

/-- C5: after any sequence of `make_current`/`unbind` calls on one thread,
`is_current` on a context (with the non-null handle `WGLContext::new`
guarantees) answers true exactly when the most recent driver-accepted call
of the sequence was that context's `make_current`: it answers that
handle's equality after an accepted `make_current` (so false after another
context's accepted `make_current`), false after an accepted `unbind`, and
keeps the initial state's answer when no call was accepted. -/
theorem is_current_reflects_last_bind (c : WGLContextHandle) (hnz : c.hglrc ≠ 0) :
    ∀ (ops : List CtxOp) (s : WglThreadState),
      is_current c (runCtxOps s ops) =
        (match lastSuccessfulOp ops with
          | some (CtxOp.makeCurrentOp c' _) => c'.hglrc == c.hglrc
          | some (CtxOp.unbindOp _) => false
          | none => is_current c s) := by
  intro ops
  induction ops with
  | nil => intro s; rfl
  | cons op rest ih =>
    intro s
    have hrun : runCtxOps s (op :: rest) = runCtxOps (applyCtxOp s op) rest := rfl
    rw [hrun, ih (applyCtxOp s op)]
    cases hlast : lastSuccessfulOp rest with
    | some o =>
      cases o with
      | makeCurrentOp c2 ok2 => simp [lastSuccessfulOp, hlast]
      | unbindOp ok2 => simp [lastSuccessfulOp, hlast]
    | none =>
      simp only [lastSuccessfulOp, hlast]
      cases op with
      | makeCurrentOp c' ok =>
        cases ok with
        | false => simp [applyCtxOp, make_current, wglMakeCurrentCall, ctxOpSucceeds]
        | true =>
          simp [applyCtxOp, make_current, wglMakeCurrentCall, ctxOpSucceeds,
            is_current, wglGetCurrentContextCall]
      | unbindOp ok =>
        cases ok with
        | false => simp [applyCtxOp, unbind, wglMakeCurrentCall, ctxOpSucceeds]
        | true =>
          have h0 : ((0 : Int) == c.hglrc) = false :=
            beq_eq_false_iff_ne.mpr (Ne.symm hnz)
          simp [applyCtxOp, unbind, wglMakeCurrentCall, ctxOpSucceeds,
            is_current, wglGetCurrentContextCall, h0]

/-- Witness for C5: binding `cW` and then unbinding leaves `cW` not
current. -/
theorem is_current_reflects_last_bind_witness :
    is_current cW (runCtxOps sZero
      [CtxOp.makeCurrentOp cW true, CtxOp.unbindOp true]) = false := by
  rw [is_current_reflects_last_bind cW (by decide)
    [CtxOp.makeCurrentOp cW true, CtxOp.unbindOp true] sZero]
  rfl
